import Mathlib

/-!
Shallow embedding of the debug-preparation tool (`debug_prep.py`) and the
test-output parser (`output_parser.py`).

Source files are modelled as lists of raw line strings (Python
`readlines()` / `splitlines()`), Python regular-expression rewrites are
modelled by explicit character scanners, and the Python `ast` parse of a
file is modelled by an abstract parse oracle that returns the
`FunctionDef` declarations (name and body-start line) in `ast.walk`
order.  Fallible or effectful pieces (dynamic import, fixture setup) are
modelled by explicit environments carrying `Except`/`Option` results.
-/

/-- Leading-whitespace count of a line: `len(l) - len(l.lstrip())`. -/
def indentOf (l : String) : Nat := (l.data.takeWhile Char.isWhitespace).length

/-- Indentation pad made of spaces, as in `' ' * indent`. -/
def padOf (l : String) : String := String.mk (List.replicate (indentOf l) ' ')

/-- Python `str.rstrip()`: drop trailing whitespace (including the newline). -/
def pyRstrip (s : String) : String :=
  String.mk (s.data.reverse.dropWhile Char.isWhitespace).reverse

/-- Python `str.strip()`: drop leading and trailing whitespace. -/
def pyStrip (s : String) : String :=
  String.mk ((s.data.dropWhile Char.isWhitespace).reverse.dropWhile Char.isWhitespace).reverse

/-- Split a character list at every occurrence of the separator character
(kernel-evaluable counterpart of `String.splitOn` for a one-character
separator). -/
def splitOnCharAux (sep : Char) (acc : List Char) : List Char → List String
  | [] => [String.mk acc.reverse]
  | c :: cs =>
    if c = sep then String.mk acc.reverse :: splitOnCharAux sep [] cs
    else splitOnCharAux sep (c :: acc) cs

/-- Split a string at every occurrence of the separator character. -/
def splitOnChar (sep : Char) (s : String) : List String :=
  splitOnCharAux sep [] s.data

/-- Python `list.insert(i, x)` on a list of lines (clamps at the end). -/
def pyInsert (xs : List String) (i : Nat) (x : String) : List String :=
  xs.take i ++ x :: xs.drop i

/-- The first occurrence of the pattern `pat` inside `s`: returns the part
before the occurrence and the part after it, or `none` when `pat` does not
occur.  This models Python substring search (`in`, `str.find`). -/
def splitFirstSub (pat : List Char) : List Char → Option (List Char × List Char)
  | [] => if pat.isPrefixOf ([] : List Char) then some ([], []) else none
  | c :: cs =>
    if pat.isPrefixOf (c :: cs) then some ([], (c :: cs).drop pat.length)
    else
      match splitFirstSub pat cs with
      | some (before, rest) => some (c :: before, rest)
      | none => none

/-- Python substring containment `pat in s` on character lists. -/
def containsSubL (pat s : List Char) : Bool := (splitFirstSub pat s).isSome

/-- Python substring containment `pat in s` on strings. -/
def containsSubStr (pat s : String) : Bool := containsSubL pat.data s.data

/-- Python `os.path.basename` on a POSIX path: the part after the last `/`. -/
def basename (s : String) : String :=
  match (splitOnChar '/' s).getLast? with
  | some b => b
  | none => s

/-- Matcher for `re.match(r'\s*@timeout\b', l)`: optional leading whitespace,
the literal `@timeout`, then a word boundary. -/
def isTimeoutLine (l : String) : Bool :=
  let rest := l.data.dropWhile Char.isWhitespace
  ("@timeout".data).isPrefixOf rest &&
    (match rest.drop 8 with
     | [] => true
     | c :: _ => !(c.isAlphanum || c = '_'))

/-- Matcher for one occurrence of `signal\.alarm\([^)]*\)` at the head of `s`:
when `s` starts with `signal.alarm(` and a `)` occurs later, returns the
remainder of `s` after the first `)` closing the argument list. -/
def matchAlarm (s : List Char) : Option (List Char) :=
  if ("signal.alarm(".data).isPrefixOf s then
    let t := s.drop 13
    if t.contains ')' then some ((t.dropWhile (fun c => c ≠ ')')).drop 1) else none
  else none

/-- Fueled scanner implementing `re.sub(r'signal\.alarm\([^)]*\)',
'signal.alarm(0)', l)`: left-to-right scan, each match is replaced and the
scan resumes after the match.  Each step consumes at least one character, so
fuel equal to the input length computes the full substitution. -/
def subAlarmAux : Nat → List Char → List Char
  | 0, s => s
  | _ + 1, [] => []
  | n + 1, c :: cs =>
    match matchAlarm (c :: cs) with
    | some rest => "signal.alarm(0)".data ++ subAlarmAux n rest
    | none => c :: subAlarmAux n cs

/-- Whether the alarm-call pattern matches anywhere in `s`. -/
def hasAlarmMatch : List Char → Bool
  | [] => false
  | c :: cs => (matchAlarm (c :: cs)).isSome || hasAlarmMatch cs

/-- The full `re.sub` rewrite of one line. -/
def pySubAlarm (l : String) : String := String.mk (subAlarmAux l.data.length l.data)

/-- Embedding of `remove_timeouts` (debug_prep.py:17): drop every
`@timeout` decorator line. -/
def remove_timeouts (lines : List String) : List String :=
  lines.filter (fun l => !isTimeoutLine l)

/-- Embedding of `neutralize_alarms` (debug_prep.py:22): rewrite every
`signal.alarm(...)` call to `signal.alarm(0)` in every line. -/
def neutralize_alarms (lines : List String) : List String :=
  lines.map pySubAlarm

/-- Valid run of digits for Python `int(...)` after the first digit:
underscores allowed only singly and between digits. -/
def pyDigitsRest : List Char → Bool
  | [] => true
  | '_' :: [] => false
  | '_' :: c :: cs => c.isDigit && pyDigitsRest cs
  | c :: cs => c.isDigit && pyDigitsRest cs

/-- Valid digit run for Python `int(...)`: nonempty, starts with a digit. -/
def pyDigitsOk : List Char → Bool
  | [] => false
  | c :: cs => c.isDigit && pyDigitsRest cs

/-- Numeric value of a digit run, ignoring underscores. -/
def digitsVal (ds : List Char) : Nat :=
  ds.foldl (fun a c => if c = '_' then a else a * 10 + (c.toNat - 48)) 0

/-- Python `int(s)` returning `none` where Python raises `ValueError`:
surrounding whitespace stripped, optional sign, then a digit run. -/
def pyIntParse (s : String) : Option Int :=
  match (pyStrip s).data with
  | '+' :: r => if pyDigitsOk r then some (Int.ofNat (digitsVal r)) else none
  | '-' :: r => if pyDigitsOk r then some (-(Int.ofNat (digitsVal r))) else none
  | r => if pyDigitsOk r then some (Int.ofNat (digitsVal r)) else none

/-- Python `line.rsplit(':', 1)` on a line known to contain a `:`. -/
def rsplitColon (s : String) : String × String :=
  let r := s.data.reverse
  let suf := r.takeWhile (fun c => c ≠ ':')
  (String.mk ((r.drop (suf.length + 1)).reverse), String.mk suf.reverse)

/-- Loop body of `read_manual_breakpoints` (debug_prep.py:36): per raw line,
strip it, skip blanks, split at the last `:`, keep the pair when the suffix
parses as an integer. -/
def parseBpLoop : List String → List (String × Int)
  | [] => []
  | raw :: ls =>
    let line := pyStrip raw
    if line = "" then parseBpLoop ls
    else if line.data.contains ':' then
      match pyIntParse (rsplitColon line).2 with
      | some n => ((rsplitColon line).1, n) :: parseBpLoop ls
      | none => parseBpLoop ls
    else parseBpLoop ls

/-- Embedding of `read_manual_breakpoints` (debug_prep.py:30).  The store is
`none` when the breakpoint file does not exist, otherwise its text content;
file iteration is modelled by splitting the content on newlines (each Python
iteration line is then stripped exactly as the code does). -/
def read_manual_breakpoints (store : Option String) : List (String × Int) :=
  match store with
  | none => []
  | some content => parseBpLoop (splitOnChar '\n' content)

/-- Specification-side reading of one store line, following the spec's words:
a well-formed `<file-path>:<line-number>` line yields its pair; blank lines,
lines without a separator and lines with a non-integer suffix yield nothing. -/
def bpLineParsed (raw : String) : Option (String × Int) :=
  let line := pyStrip raw
  if line = "" then none
  else if line.data.contains ':' then
    match pyIntParse (rsplitColon line).2 with
    | some n => some ((rsplitColon line).1, n)
    | none => none
  else none

/-- Embedding of `_error_summary_print` (debug_prep.py:52). -/
def error_summary_print : String :=
  "import os as _os; _es='_pretty_testing_/.error_summary'; _os.path.exists(_es) and print(open(_es).read())"

/-- One `set_break` part of the injected statement. -/
def setBreakStr (f : String) (n : String) : String :=
  "_dbg.set_break(\"" ++ f ++ "\", " ++ n ++ ")"

/-- The debugger-import header of the injected statement. -/
def traceHeader (debugger : String) : String :=
  if debugger = "pdbpp" then
    "import pdb; hasattr(pdb,'DefaultConfig') and setattr(pdb.DefaultConfig,'sticky_by_default',True); _dbg = pdb.Pdb()"
  else
    "import pudb; _dbg = pudb._get_debugger()"

/-- The trailing `set_trace` call of the injected statement. -/
def traceTail (debugger : String) : String :=
  if debugger = "pdbpp" then "pdb.set_trace()" else "pudb.set_trace()"

/-- Embedding of `_trace_line` (debug_prep.py:57): single optional breakpoint
target.  Python truthiness of the optional arguments is modelled by `Option`
(with `0` as the falsy line number). -/
def trace_line (debugger : String) (abs_path : Option String) (bp_target : Option Nat)
    (ue_file : Option String) (ue_line : Nat) (manual_bps : List (String × Int)) : String :=
  let bps := match bp_target, abs_path with
    | some bp, some p => [setBreakStr p (toString bp)]
    | _, _ => []
  let ue := match ue_file with
    | some f => if ue_line ≠ 0 then [setBreakStr f (toString ue_line)] else []
    | none => []
  let mans := manual_bps.map (fun bp => setBreakStr bp.1 (toString bp.2))
  String.intercalate "; "
    ([traceHeader debugger] ++ bps ++ ue ++ mans ++ [error_summary_print, traceTail debugger])

/-- Embedding of `_trace_line_multi` (debug_prep.py:88): a list of breakpoint
targets, each emitted only when the absolute path is present. -/
def trace_line_multi (debugger : String) (abs_path : Option String) (bp_targets : List Nat)
    (ue_file : Option String) (ue_line : Nat) (manual_bps : List (String × Int)) : String :=
  let bps := match abs_path with
    | some p => bp_targets.map (fun bp => setBreakStr p (toString bp))
    | none => []
  let ue := match ue_file with
    | some f => if ue_line ≠ 0 then [setBreakStr f (toString ue_line)] else []
    | none => []
  let mans := manual_bps.map (fun bp => setBreakStr bp.1 (toString bp.2))
  String.intercalate "; "
    ([traceHeader debugger] ++ bps ++ ue ++ mans ++ [error_summary_print, traceTail debugger])

/-- One `ast.FunctionDef` node of the parsed file: its name and the line
number (1-based, as reported by the parser) of the first statement of its
body (`node.body[0].lineno`). -/
structure PyFuncDecl where
  name : String
  bodyStart : Nat
deriving DecidableEq

/-- First `FunctionDef` with the given name in `ast.walk` order, returning
its body-start line (the `for node in ast.walk(tree) ... break` loops of
debug_prep.py). -/
def findFunc (decls : List PyFuncDecl) (name : String) : Option Nat :=
  match decls with
  | [] => none
  | d :: ds => if d.name = name then some d.bodyStart else findFunc ds name

/-- Breakpoint targets derived inside `inject_setup_trace`
(debug_prep.py:224-231): the target method's body-start line plus one when a
method and path are known, then the fail line plus one when it is nonzero, a
path is known and it differs from the method's body-start line.  Python
truthiness of `method_body_line` (an `Optional[int]`) and `abs_path` is
modelled by `Option` plus the zero test. -/
def setupBpTargets (method_body_line : Option Nat) (fail_line : Nat)
    (abs_path : Option String) : List Nat :=
  let first := match method_body_line, abs_path with
    | some l, some _ => if l = 0 then [] else [l + 1]
    | _, _ => []
  let second :=
    if fail_line ≠ 0 ∧ abs_path.isSome ∧ method_body_line ≠ some fail_line then
      [fail_line + 1]
    else []
  first ++ second

/-- Embedding of `inject_setup_trace` (debug_prep.py:191): insert the
`set_trace` statement above the first statement of `setUp` (or at the top of
the file when no `setUp` declaration exists), with breakpoints at the target
method's body start and at the fail line, both offset by one for the line
about to be inserted.  `parse` is the abstract `ast.parse`/`ast.walk`
oracle; `store` is the manual-breakpoint store's content.  Indexing
`lines[body_line]` is modelled by `getD` (the theorems below bound the index
inside the file, where Python would otherwise raise). -/
def inject_setup_trace (parse : List String → List PyFuncDecl) (store : Option String)
    (lines : List String) (debugger : String) (method : Option String) (fail_line : Nat)
    (abs_path : Option String) (ue_file : Option String) (ue_line : Nat) : List String :=
  let decls := parse lines
  let manual_bps := read_manual_breakpoints store
  let method_body_line : Option Nat :=
    match method with
    | none => none
    | some m => findFunc decls m
  match findFunc decls "setUp" with
  | some bl =>
    let body_line := bl - 1
    let pad := padOf (lines.getD body_line "")
    let bp_targets := setupBpTargets method_body_line fail_line abs_path
    let trace := trace_line_multi debugger abs_path bp_targets ue_file ue_line manual_bps
    pyInsert lines body_line (pad ++ trace ++ "\n")
  | none =>
    let bp_targets := setupBpTargets method_body_line fail_line abs_path
    let trace := trace_line_multi debugger abs_path bp_targets ue_file ue_line manual_bps
    pyInsert lines 0 (trace ++ "\n")

/-- Embedding of `inject_set_trace` (debug_prep.py:122): count the
`@timeout` lines removed before the fail line, adjust the fail line, apply
the neutralizer passes, then insert the `set_trace` statement above the
first statement of the target method's body (or at the top of the file when
the method is not found). -/
def inject_set_trace (parse : List String → List PyFuncDecl) (store : Option String)
    (lines : List String) (method : String) (fail_line : Nat) (abs_path : Option String)
    (debugger : String) (ue_file : Option String) (ue_line : Nat) : List String :=
  let removed := ((lines.take (fail_line - 1)).filter (fun l => isTimeoutLine l)).length
  let adj_fail := if fail_line > 0 then fail_line - removed else 0
  let cleaned := neutralize_alarms (remove_timeouts lines)
  let decls := parse cleaned
  let manual_bps := read_manual_breakpoints store
  match findFunc decls method with
  | some bl =>
    let body_line := bl - 1
    let pad := padOf (cleaned.getD body_line "")
    let bp_target := if adj_fail > 0 then some (adj_fail + 1) else none
    let trace := trace_line debugger abs_path bp_target ue_file ue_line manual_bps
    pyInsert cleaned body_line (pad ++ trace ++ "\n")
  | none =>
    let trace := trace_line debugger none none ue_file ue_line manual_bps
    pyInsert cleaned 0 (trace ++ "\n")

/-- The multi-line replacement text of `patch_postmortem`
(debug_prep.py:171-179), appended as a single list element. -/
def pmReplacement (debugger : String) : String :=
  let pm_mod := if debugger = "pudb" then "pudb" else "pdb"
  let pad := String.mk (List.replicate 16 ' ')
  pad ++ "import sys as _s; _tb = _s.exc_info()[2]; _ut = _tb\n" ++
  pad ++ "while _tb:\n" ++
  pad ++ "    if _tb.tb_frame.f_code.co_filename == __file__: _ut = _tb\n" ++
  pad ++ "    _tb = _tb.tb_next\n" ++
  pad ++ "try: _ut.tb_next = None\n" ++
  pad ++ "except: pass\n" ++
  pad ++ "import " ++ pm_mod ++ "; " ++ pm_mod ++ ".post_mortem()\n"

/-- Embedding of `patch_postmortem` (debug_prep.py:160): replace the first
line whose stripped content is exactly `raise e` with the post-mortem
block; later occurrences are kept. -/
def patch_postmortem (lines : List String) (debugger : String) : List String :=
  match lines with
  | [] => []
  | l :: ls =>
    if pyStrip l = "raise e" then pmReplacement debugger :: ls
    else l :: patch_postmortem ls debugger

/-- Abstract view of one top-level object of the dynamically imported
module, carrying exactly the observations `run_preflight` makes of it:
`isinstance(obj, type)`, `issubclass(obj, unittest.TestCase)`, identity with
`unittest.TestCase` itself, `hasattr(obj, method)`, and the outcome of
`obj(method)` followed by `instance.setUp()` (`some msg` when that raises,
`none` when it succeeds or no `setUp` callable exists). -/
structure PyClassObj where
  isClass : Bool
  isTestCaseSub : Bool
  isBase : Bool
  hasMethod : String → Bool
  setupResult : String → Option String

/-- Abstract view of the dynamic import of the rewritten file: either the
exception message raised by `spec.loader.exec_module` or the module's
top-level objects in `dir(mod)` order. -/
structure ModuleEnv where
  importResult : Except String (List PyClassObj)

/-- The class-selection test of `run_preflight` (debug_prep.py:273-274). -/
def preflightQualifies (m : String) (o : PyClassObj) : Bool :=
  o.isClass && o.isTestCaseSub && !o.isBase && o.hasMethod m

/-- Embedding of `run_preflight` (debug_prep.py:253): import errors,
missing test class, and setup failures each map to a `(False, message)`
result, success to `(True, '')`. -/
def run_preflight (env : ModuleEnv) (m : String) : Bool × String :=
  match env.importResult with
  | .error e => (false, "Import error: " ++ e)
  | .ok objs =>
    match objs.find? (preflightQualifies m) with
    | none => (false, "No TestCase class contains method " ++ m)
    | some cls =>
      match cls.setupResult m with
      | some e => (false, "setUp failed: " ++ e)
      | none => (true, "")

/-- Outcome of `full_debug_prep`: the lines finally written to the target
file, the file contents each preflight invocation was run against (in
order), and whether the fixture fallback was taken. -/
structure PrepOutcome where
  finalLines : List String
  preflightInputs : List (List String)
  usedFallback : Bool
deriving DecidableEq

/-- Embedding of `full_debug_prep` (debug_prep.py:292): write the Direct
rewrite, run the preflight on it, and on failure rebuild from the pristine
original lines via the neutralizer passes, `inject_setup_trace` and
`patch_postmortem`.  `preflight` abstracts `run_preflight` applied to the
file just written (its dynamic-import behaviour depends on the file's
code, which is outside the line-level model). -/
def full_debug_prep (parse : List String → List PyFuncDecl)
    (preflight : List String → Bool × String) (store : Option String)
    (original : List String) (method : String) (fail_line : Nat) (abs_path : String)
    (debugger : String) (ue_file : Option String) (ue_line : Nat) : PrepOutcome :=
  let direct := patch_postmortem
    (inject_set_trace parse store original method fail_line (some abs_path) debugger ue_file ue_line)
    debugger
  let pre := preflight direct
  if pre.1 then
    { finalLines := direct, preflightInputs := [direct], usedFallback := false }
  else
    let cleaned := neutralize_alarms (remove_timeouts original)
    let fallback := patch_postmortem
      (inject_setup_trace parse store cleaned debugger (some method) fail_line
        (some abs_path) ue_file ue_line)
      debugger
    { finalLines := fallback, preflightInputs := [direct], usedFallback := true }

/-- One parsed traceback frame: the groups of the pattern
`File "([^"]+)", line (\d+), in (.+?)$` (output_parser.py:207,299). -/
structure TraceFrame where
  path : String
  lineno : Nat
  name : String
deriving DecidableEq

/-- Attempt to read one frame record starting right after a `File "`
occurrence: the quoted path, the literal `", line `, a digit run, the
literal `, in `, then the (nonempty) rest of the line as the enclosing
name. -/
def frameAfterFile (s : List Char) : Option TraceFrame :=
  let path := s.takeWhile (fun c => c ≠ '"')
  if path.isEmpty then none
  else
    let r1 := s.drop path.length
    if ("\", line ".data).isPrefixOf r1 then
      let r2 := r1.drop 8
      let ds := r2.takeWhile Char.isDigit
      if ds.isEmpty then none
      else
        let r3 := r2.drop ds.length
        if (", in ".data).isPrefixOf r3 then
          let nm := r3.drop 5
          if nm.isEmpty then none else some ⟨String.mk path, digitsVal ds, String.mk nm⟩
        else none
    else none

/-- Fueled scan of one line for the frame pattern: try each `File "`
occurrence from the left, as `re.finditer` does; fuel equal to the line
length suffices since every retry drops past one occurrence. -/
def scanFrame : Nat → List Char → Option TraceFrame
  | 0, _ => none
  | fuel + 1, s =>
    match splitFirstSub ("File \"".data) s with
    | none => none
    | some (_, rest) =>
      match frameAfterFile rest with
      | some fr => some fr
      | none => scanFrame fuel rest

/-- The frame parsed from one line of traceback text, if any.  The
`re.MULTILINE` pattern never crosses a line boundary (`[^"]+` aside, which
never does so on real tracebacks), so the whole-text `finditer` is modelled
line by line. -/
def parseFrameLine (l : String) : Option TraceFrame :=
  scanFrame l.data.length l.data

/-- All frames of a traceback text (given as its lines), in text order. -/
def parseFrames (text : List String) : List TraceFrame :=
  text.filterMap parseFrameLine

/-- Match accumulation loop of `extract_fail_line` (output_parser.py:307):
line numbers of the frames whose base filename equals the target's base
filename and whose stripped enclosing-name equals the method name exactly. -/
def failLineLoop (tb m : String) : List TraceFrame → List Nat
  | [] => []
  | f :: fs =>
    if basename f.path = tb ∧ pyStrip f.name = m then f.lineno :: failLineLoop tb m fs
    else failLineLoop tb m fs

/-- Embedding of `extract_fail_line` (output_parser.py:284): the last
accumulated match, or the sentinel `0`. -/
def extract_fail_line (text : List String) (target_file m : String) : Nat :=
  match (failLineLoop (basename target_file) m (parseFrames text)).getLast? with
  | some n => n
  | none => 0

/-- Name with any bracketed parametrization suffix stripped, as the claim
words it (`test_foo[param]` matches method `test_foo`). -/
def stripParametrization (s : String) : String :=
  String.mk (s.data.takeWhile (fun c => c ≠ '['))

/-- Modelled from the claim's wording of `extractFailLine`: the line number
of the last frame whose base filename equals the target's base filename and
whose enclosing-name, after stripping any bracketed parametrization, equals
the method name exactly; `0` when no frame matches. -/
def claimFailLine (text : List String) (target_file m : String) : Nat :=
  let ms := (parseFrames text).filter
    (fun f => basename f.path = basename target_file ∧ stripParametrization (pyStrip f.name) = m)
  match (ms.map TraceFrame.lineno).getLast? with
  | some n => n
  | none => 0

/-- Specification-side form of the amended fail-line contract: the last
frame with base-filename equality and exact (stripped) enclosing-name
equality, `0` when none. -/
def specFailLineExact (text : List String) (target_file m : String) : Nat :=
  let ms := (parseFrames text).filter
    (fun f => basename f.path = basename target_file ∧ pyStrip f.name = m)
  match (ms.map TraceFrame.lineno).getLast? with
  | some n => n
  | none => 0

/-- Embedding of `_is_stdlib_or_thirdparty` (output_parser.py:179). -/
def isStdlibOrThirdparty (path : String) : Bool :=
  ("<".data).isPrefixOf path.data ||
  containsSubStr "/lib/python" path || containsSubStr "\\lib\\python" path ||
  containsSubStr "site-packages" path || containsSubStr "dist-packages" path

/-- The test-file check of `extract_relevant_traceback`
(output_parser.py:228-232): the test basename must be truthy (nonempty) and
the frame's base filename must equal it or carry one of the two
generated-file markers.  `none` models a falsy `test_file` argument. -/
def isTestFileFrame (test_basename : Option String) (file_basename : String) : Bool :=
  match test_basename with
  | none => false
  | some tb =>
    !(tb = "") &&
      (file_basename = tb || containsSubStr "debug_this_test" file_basename ||
       containsSubStr "watch_" file_basename)

/-- Frame walk of `extract_relevant_traceback` (output_parser.py:223-253),
with `acc` playing the role of the `relevant_frames` list: runner frames
are skipped, test-file and user frames appended, and a stdlib/third-party
frame ends the walk when something has been accumulated (Python's `break`
returning `acc`), else is skipped. -/
def isRunnerFrame (tb : Option String) (f : TraceFrame) : Bool :=
  isTestFileFrame tb (basename f.path) && (f.name == "<module>")

def relevantAux (tb : Option String) : List TraceFrame → List TraceFrame → List TraceFrame
  | acc, [] => acc
  | acc, f :: fs =>
    if isRunnerFrame tb f then relevantAux tb acc fs
    else if isTestFileFrame tb (basename f.path) then relevantAux tb (acc ++ [f]) fs
    else if isStdlibOrThirdparty f.path then
      (if acc.isEmpty then relevantAux tb acc fs else acc)
    else relevantAux tb (acc ++ [f]) fs

/-- Embedding of `extract_relevant_traceback` (output_parser.py:190).
Frame names are stripped where the code strips them (line 215); a falsy
`test_file` is `none`. -/
def extract_relevant_traceback (text : List String) (test_file : Option String) :
    List TraceFrame :=
  let all_frames := (parseFrames text).map (fun f => { f with name := pyStrip f.name })
  if all_frames.isEmpty then []
  else relevantAux (test_file.map basename) [] all_frames

/-- Modelled from the spec's traversal rule for `extractRelevantFrames`:
walk frames in order carrying a "has accumulated" flag; drop runner frames;
include test and user frames; at a stdlib/third-party frame stop when
something has been accumulated, else keep scanning. -/
def specRelevantWalk (tb : Option String) (seen : Bool) : List TraceFrame → List TraceFrame
  | [] => []
  | f :: fs =>
    if isRunnerFrame tb f then specRelevantWalk tb seen fs
    else if isTestFileFrame tb (basename f.path) then f :: specRelevantWalk tb true fs
    else if isStdlibOrThirdparty f.path then
      (if seen then [] else specRelevantWalk tb seen fs)
    else f :: specRelevantWalk tb true fs

/-- Specification-side `extractRelevantFrames`. -/
def specRelevantFrames (text : List String) (test_file : Option String) : List TraceFrame :=
  specRelevantWalk (test_file.map basename) false
    ((parseFrames text).map (fun f => { f with name := pyStrip f.name }))

/-- Matcher for one ANSI escape `\x1b\[[0-9;]*m` at the head of `s`,
returning the remainder after the `m`. -/
def ansiMatch : List Char → Option (List Char)
  | '\x1b' :: '[' :: rest =>
    match rest.dropWhile (fun c => c.isDigit || c = ';') with
    | 'm' :: r => some r
    | _ => none
  | _ => none

/-- Fueled scanner for `re.sub(r'\x1b\[[0-9;]*m', '', line)`. -/
def stripAnsiAux : Nat → List Char → List Char
  | 0, s => s
  | _ + 1, [] => []
  | n + 1, c :: cs =>
    match ansiMatch (c :: cs) with
    | some rest => stripAnsiAux n rest
    | none => c :: stripAnsiAux n cs

/-- Strip all ANSI color escapes from a line. -/
def stripAnsi (s : String) : String := String.mk (stripAnsiAux s.data.length s.data)

/-- Fueled scanner for Python `s.replace(pat, repl)` (all occurrences,
left to right). -/
def replaceAllAux (pat repl : List Char) : Nat → List Char → List Char
  | 0, s => s
  | _ + 1, [] => []
  | n + 1, c :: cs =>
    if pat.isPrefixOf (c :: cs) then repl ++ replaceAllAux pat repl n ((c :: cs).drop pat.length)
    else c :: replaceAllAux pat repl n cs

/-- Python `s.replace(pat, repl)` for a nonempty pattern. -/
def pyReplace (s pat repl : String) : String :=
  String.mk (replaceAllAux pat.data repl.data s.data.length s.data)

/-- Accumulator of the `parse_trace` state machine (output_parser.py:108):
the numeric state exactly as in the code (0 idle, 1 in-test, 5 failure
summary, 3 silent after the raw traceback header), the captured failure
summary lines and the executed-lines log entries. -/
structure TraceAcc where
  state : Nat
  summary : List String
  log : List String
deriving DecidableEq

/-- One line of the `parse_trace` loop (output_parser.py:112-137).
`colorize` abstracts `colorize_code` (a pygments-or-fallback recolorizer
whose output the claims do not constrain). -/
def parse_trace_step (colorize : String → String) (acc : TraceAcc) (line : String) :
    TraceAcc :=
  let clean := pyStrip (stripAnsi line)
  if containsSubStr "___TEST_START___" clean then { acc with state := 1 }
  else if containsSubStr "___FAILURE_SUMMARY_START___" clean then { acc with state := 5 }
  else if containsSubStr "___FAILURE_SUMMARY_END___" clean then { acc with state := 1 }
  else if acc.state = 5 then { acc with summary := acc.summary ++ [pyRstrip line] }
  else if acc.state = 1 then
    if ("[EXE] ".data).isPrefixOf clean.data then
      { acc with log := acc.log ++
          ["  \x1b[1;34m>>\x1b[0m " ++ colorize (pyReplace clean "[EXE] " "") ++ "\n"] }
    else if containsSubStr "Traceback (most recent call last)" clean then { acc with state := 3 }
    else { acc with log := acc.log ++ ["  \x1b[2m" ++ line ++ "\x1b[0m"] }
  else acc

/-- Embedding of `parse_trace` (output_parser.py:93): fold the state
machine over the stream's lines (Python `splitlines(True)`, so each line
keeps its terminator) and join the three output sections. -/
def parse_trace (colorize : String → String) (text : List String) : String :=
  let acc := text.foldl (parse_trace_step colorize) ⟨0, [], []⟩
  "___SECTION_SEP___\n" ++ String.intercalate "\n" acc.summary ++
    "\n___SECTION_SEP___\n" ++ String.join acc.log

/-- State of the machine after consuming a prefix of the stream. -/
def traceStateAfter (colorize : String → String) (text : List String) : Nat :=
  (text.foldl (parse_trace_step colorize) ⟨0, [], []⟩).state

/-- Whether a line carries one of the three control markers (checked, as in
the code, on the ANSI-stripped and whitespace-stripped line). -/
def isMarkerLine (line : String) : Bool :=
  let clean := pyStrip (stripAnsi line)
  containsSubStr "___TEST_START___" clean ||
  containsSubStr "___FAILURE_SUMMARY_START___" clean ||
  containsSubStr "___FAILURE_SUMMARY_END___" clean

theorem subAlarmAux_eq_self {s : List Char} (h : hasAlarmMatch s = false) :
    ∀ n, subAlarmAux n s = s := by
  induction s with
  | nil => intro n; cases n <;> rfl
  | cons c cs ih =>
    intro n
    cases n with
    | zero => rfl
    | succ m =>
      have h' : (matchAlarm (c :: cs)).isSome = false ∧ hasAlarmMatch cs = false := by
        simpa [hasAlarmMatch] using h
      have hm : matchAlarm (c :: cs) = none := by
        cases hx : matchAlarm (c :: cs) with
        | none => rfl
        | some r => rw [hx] at h'; simp at h'
      simp [subAlarmAux, hm, ih h'.2]

theorem pySubAlarm_eq_self {l : String} (h : hasAlarmMatch l.data = false) :
    pySubAlarm l = l := by
  unfold pySubAlarm
  rw [subAlarmAux_eq_self h]

/-- C6.  For every input line sequence with no `@timeout` decorator line and
no `signal.alarm(...)` call, the Environment Neutralizer (`remove_timeouts`
followed by `neutralize_alarms`) returns the input unchanged, line for
line. -/
theorem neutralizer_identity_on_clean (lines : List String)
    (h : ∀ l ∈ lines, isTimeoutLine l = false ∧ hasAlarmMatch l.data = false) :
    neutralize_alarms (remove_timeouts lines) = lines := by
  induction lines with
  | nil => rfl
  | cons a as ih =>
    have h1 : isTimeoutLine a = false := (h a (List.mem_cons_self a as)).1
    have h2 : pySubAlarm a = a := pySubAlarm_eq_self (h a (List.mem_cons_self a as)).2
    have ih' := ih (fun l hl => h l (List.mem_cons_of_mem a hl))
    simp only [remove_timeouts, List.filter_cons, h1, Bool.not_false, if_pos,
      neutralize_alarms, List.map_cons, h2]
    simpa [neutralize_alarms, remove_timeouts] using ih'

/-- Witness for C6 at a concrete clean file. -/
theorem neutralizer_identity_on_clean_witness :
    neutralize_alarms (remove_timeouts ["import signal\n", "def test_x(self):\n",
      "    x = 1\n"]) = ["import signal\n", "def test_x(self):\n", "    x = 1\n"] :=
  neutralizer_identity_on_clean _ (by decide)

theorem getD_map_pySubAlarm (lines : List String) :
    ∀ i : Nat, i < lines.length → hasAlarmMatch ((lines.getD i "").data) = false →
      (lines.map pySubAlarm).getD i "" = lines.getD i "" := by
  induction lines with
  | nil => intro i hi; simp at hi
  | cons a as ih =>
    intro i hi hcl
    cases i with
    | zero => simpa using pySubAlarm_eq_self (by simpa using hcl)
    | succ j =>
      have hj : j < as.length := by simpa using hi
      simpa using ih j hj (by simpa using hcl)

/-- C9.  `neutralize_alarms` preserves the number of lines, and every line
containing no `signal.alarm(...)` call is returned character-for-character
unchanged (so this pass never shifts a line number). -/
theorem neutralize_alarms_invariants (lines : List String) :
    (neutralize_alarms lines).length = lines.length ∧
    ∀ i : Nat, i < lines.length → hasAlarmMatch ((lines.getD i "").data) = false →
      (neutralize_alarms lines).getD i "" = lines.getD i "" := by
  refine ⟨by simp [neutralize_alarms], ?_⟩
  intro i hi hcl
  exact getD_map_pySubAlarm lines i hi hcl

/-- Witness for C9 at a concrete file: the alarm-free second line survives
unchanged even though the first line is rewritten. -/
theorem neutralize_alarms_invariants_witness :
    (neutralize_alarms ["signal.alarm(5)\n", "x = 2\n"]).getD 1 "" = "x = 2\n" :=
  (neutralize_alarms_invariants ["signal.alarm(5)\n", "x = 2\n"]).2 1 (by decide) (by decide)

theorem parseBpLoop_eq_filterMap (ls : List String) :
    parseBpLoop ls = ls.filterMap bpLineParsed := by
  induction ls with
  | nil => rfl
  | cons a as ih =>
    by_cases h1 : pyStrip a = ""
    · simp [parseBpLoop, bpLineParsed, h1, List.filterMap_cons, ih]
    · by_cases h2 : ':' ∈ (pyStrip a).data
      · cases hp : pyIntParse (rsplitColon (pyStrip a)).2 with
        | none => simp [parseBpLoop, bpLineParsed, h1, h2, hp, List.filterMap_cons, ih]
        | some n => simp [parseBpLoop, bpLineParsed, h1, h2, hp, List.filterMap_cons, ih]
      · simp [parseBpLoop, bpLineParsed, h1, h2, List.filterMap_cons, ih]

/-- C8.  The breakpoint store parser: the missing store yields no
breakpoints, and otherwise exactly the well-formed `<file-path>:<line>`
lines yield a pair each, in file order, while blank lines, lines without a
separator and lines with a non-integer suffix are skipped (the function is
total, so no error is ever raised).  Freshness is structural: both
injection entry points take the store content and invoke
`read_manual_breakpoints` on it at every call. -/
theorem read_manual_breakpoints_spec :
    read_manual_breakpoints none = [] ∧
    ∀ content : String,
      read_manual_breakpoints (some content) =
        (splitOnChar '\n' content).filterMap bpLineParsed :=
  ⟨rfl, fun _ => parseBpLoop_eq_filterMap _⟩

/-- C5.  `run_preflight` is total (never raises) and returns exactly one of
the four specified results: import failure, no qualifying TestCase class
(none of the module's objects is a TestCase subclass other than the base
class itself exposing the method), a failure while instantiating the first
qualifying class or running its `setUp`, or success with an empty
message. -/
theorem run_preflight_cases (env : ModuleEnv) (m : String) :
    (∃ e, env.importResult = .error e ∧
        run_preflight env m = (false, "Import error: " ++ e)) ∨
    (∃ objs, env.importResult = .ok objs ∧
        (∀ o ∈ objs, ¬ preflightQualifies m o = true) ∧
        run_preflight env m = (false, "No TestCase class contains method " ++ m)) ∨
    (∃ objs cls e, env.importResult = .ok objs ∧
        objs.find? (preflightQualifies m) = some cls ∧ cls.setupResult m = some e ∧
        run_preflight env m = (false, "setUp failed: " ++ e)) ∨
    (∃ objs cls, env.importResult = .ok objs ∧
        objs.find? (preflightQualifies m) = some cls ∧ cls.setupResult m = none ∧
        run_preflight env m = (true, "")) := by
  cases henv : env.importResult with
  | error e => exact .inl ⟨e, rfl, by simp [run_preflight, henv]⟩
  | ok objs =>
    cases hf : objs.find? (preflightQualifies m) with
    | none =>
      exact .inr (.inl ⟨objs, rfl, List.find?_eq_none.mp hf,
        by simp [run_preflight, henv, hf]⟩)
    | some cls =>
      cases hs : cls.setupResult m with
      | some e =>
        exact .inr (.inr (.inl ⟨objs, cls, e, rfl, hf, hs,
          by simp [run_preflight, henv, hf, hs]⟩))
      | none =>
        exact .inr (.inr (.inr ⟨objs, cls, rfl, hf, hs,
          by simp [run_preflight, henv, hf, hs]⟩))

theorem relevantAux_eq_walk (tb : Option String) (l : List TraceFrame) :
    ∀ acc, relevantAux tb acc l = acc ++ specRelevantWalk tb (!acc.isEmpty) l := by
  induction l with
  | nil => intro acc; simp [relevantAux, specRelevantWalk]
  | cons f fs ih =>
    intro acc
    have hne : (acc ++ [f]).isEmpty = false := by cases acc <;> rfl
    simp only [relevantAux, specRelevantWalk]
    by_cases h1 : isRunnerFrame tb f = true
    · simp only [h1, if_true]
      exact ih acc
    · have h1' : isRunnerFrame tb f = false := by simpa using h1
      by_cases h2 : isTestFileFrame tb (basename f.path) = true
      · simp only [h1', h2, Bool.false_eq_true, if_false, if_true]
        rw [ih (acc ++ [f]), hne]
        simp
      · have h2' : isTestFileFrame tb (basename f.path) = false := by simpa using h2
        by_cases h3 : isStdlibOrThirdparty f.path = true
        · simp only [h1', h2', h3, Bool.false_eq_true, if_false, if_true]
          by_cases h4 : acc.isEmpty = true
          · have : acc = [] := List.isEmpty_iff.mp h4
            subst this
            simpa using ih []
          · have h4' : acc.isEmpty = false := by simpa using h4
            simp [h4']
        · have h3' : isStdlibOrThirdparty f.path = false := by simpa using h3
          simp only [h1', h2', h3', Bool.false_eq_true, if_false]
          rw [ih (acc ++ [f]), hne]
          simp

/-- C3.  `extract_relevant_traceback` follows the spec's traversal rule:
runner frames (test-file frames named `<module>`) are always dropped,
test-file and user frames always included, the first stdlib/third-party
frame after a nonempty accumulation stops the walk, and a stdlib frame seen
before anything was accumulated is skipped.  The conjunct instantiates the
spec's `[test, user, stdlib, stdlib]` scenario, yielding `[test, user]`. -/
theorem extract_relevant_traceback_spec :
    (∀ (text : List String) (test_file : Option String),
      extract_relevant_traceback text test_file = specRelevantFrames text test_file) ∧
    extract_relevant_traceback
      ["  File \"my_test.py\", line 5, in test_x",
       "  File \"/home/u/helper.py\", line 7, in go",
       "  File \"/usr/lib/python3.9/json/decoder.py\", line 3, in decode",
       "  File \"/usr/lib/python3.9/json/scanner.py\", line 9, in scan"]
      (some "my_test.py") =
      [⟨"my_test.py", 5, "test_x"⟩, ⟨"/home/u/helper.py", 7, "go"⟩] := by
  constructor
  · intro text test_file
    unfold extract_relevant_traceback specRelevantFrames
    by_cases he :
        ((parseFrames text).map (fun f => { f with name := pyStrip f.name })).isEmpty = true
    · rw [if_pos he, List.isEmpty_iff.mp he]
      rfl
    · have he' := by simpa using he
      rw [if_neg (by simp [he'])]
      simpa using relevantAux_eq_walk (test_file.map basename)
        ((parseFrames text).map (fun f => { f with name := pyStrip f.name })) []
  · decide

theorem failLineLoop_eq_filter (tb m : String) (fs : List TraceFrame) :
    failLineLoop tb m fs =
      (fs.filter (fun f => basename f.path = tb ∧ pyStrip f.name = m)).map
        TraceFrame.lineno := by
  induction fs with
  | nil => rfl
  | cons f fs ih =>
    by_cases h : basename f.path = tb ∧ pyStrip f.name = m
    · simp [failLineLoop, h, List.filter_cons, ih]
    · simp [failLineLoop, h, List.filter_cons, ih]

/-- C2 (amended).  `extract_fail_line` returns the line number of the last
parsed frame whose file base name equals the target file's base name and
whose whitespace-stripped enclosing-name equals the method name exactly —
bracketed parametrization is not stripped — and the sentinel `0` when no
frame matches.  The conjunct instantiates the repeated `(file, method)`
scenario at lines 10 and 20: the result is 20. -/
theorem extract_fail_line_exact_last :
    (∀ (text : List String) (tf m : String),
      extract_fail_line text tf m = specFailLineExact text tf m) ∧
    extract_fail_line
      ["  File \"a/t.py\", line 10, in test_r",
       "  File \"a/t.py\", line 15, in helper",
       "  File \"a/t.py\", line 20, in test_r"] "t.py" "test_r" = 20 := by
  constructor
  · intro text tf m
    unfold extract_fail_line specFailLineExact
    rw [failLineLoop_eq_filter]
  · decide

/-- C2 counterexample.  On a traceback whose frame name carries a bracketed
parametrization (`test_foo[x0]`), the claimed enclosing-name stripping would
return line 10, but `extract_fail_line` compares names exactly and returns
the sentinel 0. -/
theorem extract_fail_line_bracket_cex :
    extract_fail_line ["  File \"a/t.py\", line 10, in test_foo[x0]"] "t.py" "test_foo" = 0 ∧
    claimFailLine ["  File \"a/t.py\", line 10, in test_foo[x0]"] "t.py" "test_foo" = 10 := by
  constructor
  · decide
  · decide

theorem parse_trace_step_silent (colorize : String → String) (acc : TraceAcc)
    (line : String) (hst : acc.state = 3) (hmk : isMarkerLine line = false) :
    parse_trace_step colorize acc line = acc := by
  have hmk' : (containsSubStr "___TEST_START___" (pyStrip (stripAnsi line)) = false ∧
      containsSubStr "___FAILURE_SUMMARY_START___" (pyStrip (stripAnsi line)) = false) ∧
      containsSubStr "___FAILURE_SUMMARY_END___" (pyStrip (stripAnsi line)) = false := by
    simpa [isMarkerLine] using hmk
  simp [parse_trace_step, hmk'.1.1, hmk'.1.2, hmk'.2, hst]

/-- C7 (amended).  Once the state machine has reached the silent state
(after a `Traceback (most recent call last)` line while in the in-test
state), every subsequent non-marker line is consumed and discarded: it
changes neither the failure-summary section nor the executed-lines log, so
removing it leaves the output unchanged.  Control-marker lines, however,
still transition the state machine even from the silent state. -/
theorem parse_trace_silent_discard (colorize : String → String)
    (pre post : List String) (line : String)
    (hstate : traceStateAfter colorize pre = 3) (hmk : isMarkerLine line = false) :
    parse_trace colorize (pre ++ line :: post) = parse_trace colorize (pre ++ post) := by
  unfold parse_trace
  rw [List.foldl_append, List.foldl_append, List.foldl_cons]
  rw [parse_trace_step_silent colorize _ line hstate hmk]

/-- Witness for C7 at a concrete stream: the non-marker line `hello` after
the traceback header is discarded. -/
theorem parse_trace_silent_discard_witness :
    parse_trace id ["___TEST_START___\n", "Traceback (most recent call last):\n",
        "hello\n"] =
      parse_trace id ["___TEST_START___\n", "Traceback (most recent call last):\n"] :=
  parse_trace_silent_discard id
    ["___TEST_START___\n", "Traceback (most recent call last):\n"] [] "hello\n"
    (by decide) (by decide)

/-- C7 counterexample.  The claim says that once the traceback header is
seen in the in-test state, ALL further lines of the stream are consumed and
discarded and appear in no output section.  But a later
`___FAILURE_SUMMARY_START___` marker line still transitions the machine out
of the silent state, after which `hello` is captured into the
failure-summary section of the output. -/
theorem parse_trace_post_traceback_leak :
    parse_trace id ["___TEST_START___\n", "Traceback (most recent call last):\n",
        "___FAILURE_SUMMARY_START___\n", "hello\n"] =
      "___SECTION_SEP___\nhello\n___SECTION_SEP___\n" := by decide

theorem setupBpTargets_two (L1 L2 : Nat) (p : String) (hL1 : 0 < L1) (hL2 : 0 < L2)
    (hne : L2 ≠ L1) : setupBpTargets (some L1) L2 (some p) = [L1 + 1, L2 + 1] := by
  have h1 : ¬(L1 = 0) := by omega
  have h2 : ¬(L2 = 0) := by omega
  simp [setupBpTargets, h1, h2, Ne.symm hne]

theorem setupBpTargets_one (L1 : Nat) (p : String) (hL1 : 0 < L1) :
    setupBpTargets (some L1) L1 (some p) = [L1 + 1] := by
  have h1 : ¬(L1 = 0) := by omega
  simp [setupBpTargets, h1]

/-- C1.  For a fixture-setup injection on a file containing a `setUp`
declaration, with a target method whose body starts at line `L1`, a failure
line `L2 ≠ L1` and a supplied absolute path, the injected trace statement is
built with exactly the two derived breakpoint line numbers `L1 + 1` and
`L2 + 1` (offset by one for the single line inserted above `setUp`'s first
statement), and is inserted above that statement. -/
theorem inject_setup_trace_two_breakpoints
    (parse : List String → List PyFuncDecl) (store : Option String)
    (lines : List String) (debugger method path : String)
    (ue_file : Option String) (ue_line : Nat) (L1 L2 B : Nat)
    (hm : findFunc (parse lines) method = some L1)
    (hs : findFunc (parse lines) "setUp" = some B)
    (hL1 : 0 < L1) (hL2 : 0 < L2) (hne : L2 ≠ L1) (hB : B - 1 < lines.length) :
    inject_setup_trace parse store lines debugger (some method) L2 (some path)
        ue_file ue_line =
      pyInsert lines (B - 1)
        (padOf (lines.getD (B - 1) "") ++
          trace_line_multi debugger (some path) [L1 + 1, L2 + 1] ue_file ue_line
            (read_manual_breakpoints store) ++ "\n") := by
  simp only [inject_setup_trace, hm, hs, setupBpTargets_two L1 L2 path hL1 hL2 hne]

/-- Witness for C1: a concrete six-line test file with `setUp` starting its
body at line 3, the target method's body at line 5 and the failure at
line 6. -/
theorem inject_setup_trace_two_breakpoints_witness :
    inject_setup_trace (fun _ => [⟨"setUp", 3⟩, ⟨"test_x", 5⟩]) none
        ["class T:\n", "    def setUp(self):\n", "        self.x = 1\n",
         "    def test_x(self):\n", "        y = 1\n", "        assert y == 2\n"]
        "pudb" (some "test_x") 6 (some "/tmp/t.py") none 0 =
      pyInsert
        ["class T:\n", "    def setUp(self):\n", "        self.x = 1\n",
         "    def test_x(self):\n", "        y = 1\n", "        assert y == 2\n"]
        (3 - 1)
        (padOf (["class T:\n", "    def setUp(self):\n", "        self.x = 1\n",
            "    def test_x(self):\n", "        y = 1\n",
            "        assert y == 2\n"].getD (3 - 1) "") ++
          trace_line_multi "pudb" (some "/tmp/t.py") [5 + 1, 6 + 1] none 0
            (read_manual_breakpoints none) ++ "\n") :=
  inject_setup_trace_two_breakpoints (fun _ => [⟨"setUp", 3⟩, ⟨"test_x", 5⟩]) none
    ["class T:\n", "    def setUp(self):\n", "        self.x = 1\n",
     "    def test_x(self):\n", "        y = 1\n", "        assert y == 2\n"]
    "pudb" "test_x" "/tmp/t.py" none 0 5 6 3
    (by decide) (by decide) (by decide) (by decide) (by decide) (by decide)

/-- C10.  When the supplied fail line coincides with the target method's
body-start line, the fixture-setup injection derives exactly one breakpoint
target (the body-start line plus one): the coinciding failure-line
breakpoint is suppressed rather than duplicated. -/
theorem inject_setup_trace_coinciding_fail_line
    (parse : List String → List PyFuncDecl) (store : Option String)
    (lines : List String) (debugger method path : String)
    (ue_file : Option String) (ue_line : Nat) (L1 B : Nat)
    (hm : findFunc (parse lines) method = some L1)
    (hs : findFunc (parse lines) "setUp" = some B)
    (hL1 : 0 < L1) (hB : B - 1 < lines.length) :
    inject_setup_trace parse store lines debugger (some method) L1 (some path)
        ue_file ue_line =
      pyInsert lines (B - 1)
        (padOf (lines.getD (B - 1) "") ++
          trace_line_multi debugger (some path) [L1 + 1] ue_file ue_line
            (read_manual_breakpoints store) ++ "\n") := by
  simp only [inject_setup_trace, hm, hs, setupBpTargets_one L1 path hL1]

/-- Witness for C10: same concrete file as C1's witness, with the fail line
equal to the method's body-start line 5. -/
theorem inject_setup_trace_coinciding_fail_line_witness :
    inject_setup_trace (fun _ => [⟨"setUp", 3⟩, ⟨"test_x", 5⟩]) none
        ["class T:\n", "    def setUp(self):\n", "        self.x = 1\n",
         "    def test_x(self):\n", "        y = 1\n", "        assert y == 2\n"]
        "pudb" (some "test_x") 5 (some "/tmp/t.py") none 0 =
      pyInsert
        ["class T:\n", "    def setUp(self):\n", "        self.x = 1\n",
         "    def test_x(self):\n", "        y = 1\n", "        assert y == 2\n"]
        (3 - 1)
        (padOf (["class T:\n", "    def setUp(self):\n", "        self.x = 1\n",
            "    def test_x(self):\n", "        y = 1\n",
            "        assert y == 2\n"].getD (3 - 1) "") ++
          trace_line_multi "pudb" (some "/tmp/t.py") [5 + 1] none 0
            (read_manual_breakpoints none) ++ "\n") :=
  inject_setup_trace_coinciding_fail_line (fun _ => [⟨"setUp", 3⟩, ⟨"test_x", 5⟩]) none
    ["class T:\n", "    def setUp(self):\n", "        self.x = 1\n",
     "    def test_x(self):\n", "        y = 1\n", "        assert y == 2\n"]
    "pudb" "test_x" "/tmp/t.py" none 0 5 3
    (by decide) (by decide) (by decide) (by decide)

/-- C4.  When the preflight on the Direct rewrite fails, `full_debug_prep`
discards that rewrite and emits, as the final file, the result of applying
`remove_timeouts`, then `neutralize_alarms`, then `inject_setup_trace`
(carrying the method, fail line and absolute path), then
`patch_postmortem`, all starting from the pristine original lines; the
preflight was run exactly once, on the Direct rewrite only — no second
preflight checks the fallback result. -/
theorem full_debug_prep_fallback (parse : List String → List PyFuncDecl)
    (preflight : List String → Bool × String) (store : Option String)
    (original : List String) (method : String) (fail_line : Nat) (abs_path : String)
    (debugger : String) (ue_file : Option String) (ue_line : Nat) (err : String)
    (hpre : preflight (patch_postmortem (inject_set_trace parse store original method
        fail_line (some abs_path) debugger ue_file ue_line) debugger) = (false, err)) :
    (full_debug_prep parse preflight store original method fail_line abs_path debugger
        ue_file ue_line).finalLines =
      patch_postmortem
        (inject_setup_trace parse store (neutralize_alarms (remove_timeouts original))
          debugger (some method) fail_line (some abs_path) ue_file ue_line) debugger ∧
    (full_debug_prep parse preflight store original method fail_line abs_path debugger
        ue_file ue_line).usedFallback = true ∧
    (full_debug_prep parse preflight store original method fail_line abs_path debugger
        ue_file ue_line).preflightInputs =
      [patch_postmortem (inject_set_trace parse store original method fail_line
        (some abs_path) debugger ue_file ue_line) debugger] := by
  simp [full_debug_prep, hpre]

/-- Witness for C4 at a concrete file whose preflight reports a setup
failure. -/
theorem full_debug_prep_fallback_witness :
    (full_debug_prep (fun _ => []) (fun _ => (false, "setUp failed: boom")) none
        ["x = 1\n"] "test_x" 0 "/tmp/a.py" "pudb" none 0).finalLines =
      patch_postmortem
        (inject_setup_trace (fun _ => []) none
          (neutralize_alarms (remove_timeouts ["x = 1\n"]))
          "pudb" (some "test_x") 0 (some "/tmp/a.py") none 0) "pudb" ∧
    (full_debug_prep (fun _ => []) (fun _ => (false, "setUp failed: boom")) none
        ["x = 1\n"] "test_x" 0 "/tmp/a.py" "pudb" none 0).usedFallback = true ∧
    (full_debug_prep (fun _ => []) (fun _ => (false, "setUp failed: boom")) none
        ["x = 1\n"] "test_x" 0 "/tmp/a.py" "pudb" none 0).preflightInputs =
      [patch_postmortem (inject_set_trace (fun _ => []) none ["x = 1\n"] "test_x" 0
        (some "/tmp/a.py") "pudb" none 0) "pudb"] :=
  full_debug_prep_fallback (fun _ => []) (fun _ => (false, "setUp failed: boom")) none
    ["x = 1\n"] "test_x" 0 "/tmp/a.py" "pudb" none 0 "setUp failed: boom" rfl
